import Mathlib

/-!
Shallow embedding of the Flask carrier-service API (src/app.py) for the
Nima Smart Shipping service.

Modelling conventions:
- Python floats are modelled as exact rationals; decimal literals of the
  source such as 1.8 are the corresponding rational constants.
- Python round(x, 2) is modelled by round2 below (rounding of x * 100 to
  the nearest integer, then division by 100).  The source relies on
  round-half-even, the model on round-half-up; no claim exercises a tie.
- The geodesic distance routine (geopy geodesic) and the Nominatim
  geocoder are external collaborators; they enter the model as the
  abstract fields geo and geocode of Env.  The service code itself
  performs no computation on coordinates besides passing them along,
  and that passing-along is what is modelled.
- The trained XGBoost model and its label encoder are external
  artifacts; when loaded they enter the model as the abstract
  ModelPredictor value in Env.model (none when the artifact files are
  absent, matching the model-and-encoder guard of the source).
- A JSON value that the source passes to float(...) is modelled by JNum:
  either a numeric value or a non-numeric value on which float raises.
- request.get_json() dictionaries are modelled by one structure per
  endpoint holding exactly the keys the endpoint reads (plus, for
  log_delivery, a caller-supplied distance_km key, which the source
  never reads).  A missing key is none.
- pandas timestamps are modelled by the abstract Timestamp structure
  (fields hour, dayofweek, epoch seconds, iso rendering); the claims
  never exercise timestamp parse failure in predict_rate, so the
  timestamp of RateRequest is taken already parsed.
- The CSV history file is modelled as a list of HistoryRecord passed in
  and returned by each handler; a handler that never touches the file
  returns the list unchanged.
-/

/-- Lower-casing of a Python string, character by character
(city.lower() in the source). -/
def lowerChars (s : String) : List Char := s.data.map Char.toLower

/-- Helper for substring containment: does the first list occur as a
prefix of the second. -/
def isPrefixCL : List Char → List Char → Bool
  | [], _ => true
  | _ :: _, [] => false
  | a :: as, b :: bs => a == b && isPrefixCL as bs

/-- Substring containment on character lists: the Python expression
needle in haystack. -/
def containsSub (needle : List Char) : List Char → Bool
  | [] => needle.isEmpty
  | c :: rest => isPrefixCL needle (c :: rest) || containsSub needle rest

/-- The test "nairobi" in city.lower() of the source (lines 113, 152). -/
def containsNairobi (city : String) : Bool :=
  containsSub ("nairobi".data) (lowerChars city)

/-- Python str.strip(): drop leading and trailing whitespace. -/
def trimStr (s : String) : String :=
  String.mk (((s.data.dropWhile Char.isWhitespace).reverse.dropWhile
    Char.isWhitespace).reverse)

/-- Python round(x, 2): round to two decimal digits. -/
def round2 (q : ℚ) : ℚ := (round (q * 100) : ℚ) / 100

/-- The fixed origin, BASE_LOCATION = (-1.263757, 36.9116907) of app.py
line 11. -/
def BASE_LOCATION : ℚ × ℚ := (-1.263757, 36.9116907)

/-- The six pricing parameters of config.json / the built-in defaults
(app.py lines 35-42). -/
structure Config where
  rate_per_km_nairobi : ℚ
  base_fee_nairobi : ℚ
  flat_rate_others : ℚ
  free_shipping_minimum : ℚ
  min_delivery_order : ℚ
  zone_surcharge : ℚ
deriving DecidableEq

/-- The built-in default configuration of app.py lines 35-42. -/
def defaultConfig : Config :=
  { rate_per_km_nairobi := 28
    base_fee_nairobi := 50
    flat_rate_others := 300
    free_shipping_minimum := 3000
    min_delivery_order := 500
    zone_surcharge := 10 }

/-- A JSON value handed to float(...): numeric, or non-numeric (float
raises on it). -/
inductive JNum where
  | num (q : ℚ)
  | nonNumeric (s : String)
deriving DecidableEq

/-- Python float(v) on a JSON value: some result, or none when float
raises. -/
def toFloat? : JNum → Option ℚ
  | .num q => some q
  | .nonNumeric _ => none

/-- A parsed pandas timestamp: the features the source reads from it. -/
structure Timestamp where
  iso : String
  hour : ℕ
  dayofweek : ℕ
  epoch : ℚ
deriving DecidableEq

/-- The loaded XGBoost model together with its label encoder
(app.py lines 21-26): the encoder vocabulary classes, the encoder
transform, and the regressor on the feature vector
(distance_km, city_encoded, hour, dayofweek). -/
structure ModelPredictor where
  classes : List String
  transform : String → ℕ
  predict : ℚ → ℕ → ℕ → ℕ → ℚ

/-- Outcome of the Nominatim geocode call (app.py lines 79-88):
a location, no location (None), or a raised exception. -/
inductive GeocodeResult where
  | found (lat lon : ℚ)
  | notFound
  | failed (msg : String)

/-- Process-level environment: configured API key, pricing config,
optionally loaded model and encoder, and the two external
collaborators (geodesic distance and geocoder). -/
structure Env where
  apiKey : String
  config : Config
  model : Option ModelPredictor
  geo : ℚ × ℚ → ℚ × ℚ → ℚ
  geocode : String → GeocodeResult

/-- One row of delivery_history.csv (columns of app.py lines 46-49). -/
structure HistoryRecord where
  timestamp : String
  latitude : ℚ
  longitude : ℚ
  county : String
  distance_km : ℚ
  predicted_price_ksh : Option ℚ
  predicted_eta_hours : Option ℚ
deriving DecidableEq

/-- The JSON body and header of a /predict-rate request: exactly the
keys that predict_rate reads. -/
structure RateRequest where
  apiKey : Option String
  latitude : Option JNum
  longitude : Option JNum
  billing_address_2 : Option String
  order_total : Option ℚ
  timestamp : Timestamp

/-- The possible /predict-rate responses: 401 Unauthorized, the two
geocoding failures (400), the minimum-order rejection (400, carrying
the eligible marker and the configured minimum), and the priced 200
response. -/
inductive RateResponse where
  | unauthorized
  | locateFailed
  | geocodeFailed (msg : String)
  | belowMinimum (eligible : Bool) (minOrder : ℚ)
  | priced (distance_km : ℚ) (predicted_price_ksh : ℚ) (mode : String)
      (city : String)
deriving DecidableEq

/-- The mode field of a priced response, none otherwise. -/
def RateResponse.modeOf : RateResponse → Option String
  | .priced _ _ m _ => some m
  | _ => none

/-- The predicted_price_ksh field of a priced response, none otherwise. -/
def RateResponse.priceOf : RateResponse → Option ℚ
  | .priced _ p _ _ => some p
  | _ => none

/-- The distance_km field of a priced response, none otherwise. -/
def RateResponse.distOf : RateResponse → Option ℚ
  | .priced d _ _ _ => some d
  | _ => none

/-- city = data.get("billing_address_2", "Unknown").strip()
(app.py line 67). -/
def cityOf (req : RateRequest) : String :=
  trimStr (req.billing_address_2.getD "Unknown")

/-- The try-block of app.py lines 70-75: user_lat and user_lon after
attempting float() on the latitude and longitude keys.  Both keys must
be present for the block to run; float is applied to latitude first, so
when the latitude value parses and the longitude value does not,
user_lat keeps its parsed value while user_lon stays None. -/
def parsedCoords (req : RateRequest) : Option ℚ × Option ℚ :=
  match req.latitude, req.longitude with
  | some jla, some jlo =>
    match toFloat? jla with
    | none => (none, none)
    | some la =>
      match toFloat? jlo with
      | none => (some la, none)
      | some lo => (some la, some lo)
  | _, _ => (none, none)

/-- The geocoding fallback of app.py lines 78-88: geocode
city + ", Kenya"; None yields the 400 locate error, an exception the
400 geocoding-failed error. -/
def geocodeStep (env : Env) (city : String) :
    Except RateResponse (ℚ × ℚ) :=
  match env.geocode (city ++ ", Kenya") with
  | .found la lo => .ok (la, lo)
  | .notFound => .error .locateFailed
  | .failed msg => .error (.geocodeFailed msg)

/-- Coordinate resolution of app.py lines 66-88: the geocoding fallback
runs when not user_lat or not user_lon, that is when either coordinate
is missing, failed to parse, or equals zero (Python truthiness of
floats). -/
def resolveCoords (env : Env) (req : RateRequest) (city : String) :
    Except RateResponse (ℚ × ℚ) :=
  match parsedCoords req with
  | (some la, some lo) =>
    if la = 0 ∨ lo = 0 then geocodeStep env city else .ok (la, lo)
  | _ => geocodeStep env city

/-- The rule-based fallback pricing of app.py lines 112-126. -/
def ruleBasedPrice (cfg : Config) (city : String)
    (order_total distance_km : ℚ) : ℚ :=
  if containsNairobi city then
    if cfg.free_shipping_minimum ≤ order_total then 0
    else if distance_km ≤ 1.8 then cfg.base_fee_nairobi
    else cfg.base_fee_nairobi +
      cfg.rate_per_km_nairobi * (distance_km - 1.8)
  else
    if cfg.free_shipping_minimum ≤ order_total then 0
    else cfg.flat_rate_others + cfg.zone_surcharge

/-- The model-path pricing of app.py lines 104-109: encode the city
(0 when not in the encoder vocabulary) and run the regressor on
(distance_km, city_encoded, hour, dayofweek). -/
def modelPrice (m : ModelPredictor) (city : String) (distance_km : ℚ)
    (ts : Timestamp) : ℚ :=
  let city_encoded := if m.classes.contains city then m.transform city else 0
  m.predict distance_km city_encoded ts.hour ts.dayofweek

/-- The /predict-rate handler (app.py lines 57-135).  Returns the
response together with the history store, which this handler never
writes. -/
def predict_rate (env : Env) (req : RateRequest)
    (hist : List HistoryRecord) : RateResponse × List HistoryRecord :=
  if req.apiKey = some env.apiKey then
    let city := cityOf req
    match resolveCoords env req city with
    | .error e => (e, hist)
    | .ok (la, lo) =>
      let order_total := req.order_total.getD 0
      let distance_km := env.geo BASE_LOCATION (la, lo)
      if order_total < env.config.min_delivery_order then
        (.belowMinimum false env.config.min_delivery_order, hist)
      else
        match env.model with
        | some m =>
          (.priced (round2 distance_km)
            (round2 (modelPrice m city distance_km req.timestamp))
            "AI model" city, hist)
        | none =>
          (.priced (round2 distance_km)
            (round2 (ruleBasedPrice env.config city order_total distance_km))
            "rule-based" city, hist)
  else (.unauthorized, hist)

/-- The JSON body and header of a /predict-eta request.  The handler
never reads any API-key header; it is carried here so that its being
ignored is part of the model. -/
structure EtaRequest where
  apiKey : Option String
  latitude : Option JNum
  longitude : Option JNum
  billing_address_2 : Option String
  timestamp : Timestamp

/-- The /predict-eta responses: the 400 invalid-input error or the 200
response carrying the rounded eta, the truncated eta of the label, and
the mode string. -/
inductive EtaResponse where
  | invalidInput
  | ok (predicted_eta_hours : ℚ) (eta_label_hours : ℤ) (mode : String)
deriving DecidableEq

/-- county = data.get("billing_address_2", "Unknown").strip()
(app.py line 144). -/
def countyOf (req : EtaRequest) : String :=
  trimStr (req.billing_address_2.getD "Unknown")

/-- The ETA policy of app.py lines 151-160. -/
def etaRule (county : String) (distance_km : ℚ) : ℚ :=
  if containsNairobi county then
    if distance_km ≤ 1.8 then 0.5
    else if distance_km ≤ 5 then 1
    else 1.5
  else 6

/-- The /predict-eta handler (app.py lines 138-180).  On success it
appends one record to the history store before responding; there is no
API-key check. -/
def predict_eta (env : Env) (req : EtaRequest)
    (hist : List HistoryRecord) : EtaResponse × List HistoryRecord :=
  match req.latitude.bind toFloat?, req.longitude.bind toFloat? with
  | some la, some lo =>
    let county := countyOf req
    let distance_km := env.geo BASE_LOCATION (la, lo)
    let eta_hours := etaRule county distance_km
    let entry : HistoryRecord :=
      { timestamp := req.timestamp.iso
        latitude := la
        longitude := lo
        county := county
        distance_km := round2 distance_km
        predicted_price_ksh := none
        predicted_eta_hours := some eta_hours }
    (.ok (round2 eta_hours) (Rat.floor eta_hours) "rule-based",
      hist ++ [entry])
  | _, _ => (.invalidInput, hist)

/-- The JSON body and header of a /log-delivery request.  The handler
reads no API-key header and no distance field; both are carried here so
that their being ignored is part of the model.  A timestamp field is
none when the key is missing or pandas fails to parse it. -/
structure LogRequest where
  apiKey : Option String
  order_timestamp : Option Timestamp
  delivered_timestamp : Option Timestamp
  latitude : Option JNum
  longitude : Option JNum
  county : Option String
  actual_price_ksh : Option JNum
  distance_km : Option JNum

/-- The /log-delivery responses: the 400 invalid-input error or the 201
status-ok response. -/
inductive LogResponse where
  | invalidInput
  | ok
deriving DecidableEq

/-- The /log-delivery handler (app.py lines 183-211).  It computes the
distance freshly from the coordinates, appends one record, and checks
no API key.  actual_price_ksh defaults to 0 before float() is applied
(line 192); county defaults to "Unknown" and is not stripped
(line 191). -/
def log_delivery (env : Env) (req : LogRequest)
    (hist : List HistoryRecord) : LogResponse × List HistoryRecord :=
  match req.order_timestamp, req.delivered_timestamp,
    req.latitude.bind toFloat?, req.longitude.bind toFloat?,
    toFloat? (req.actual_price_ksh.getD (.num 0)) with
  | some ots, some dts, some la, some lo, some price =>
    let county := req.county.getD "Unknown"
    let distance_km := env.geo BASE_LOCATION (la, lo)
    let eta_hours := (dts.epoch - ots.epoch) / 3600
    let entry : HistoryRecord :=
      { timestamp := ots.iso
        latitude := la
        longitude := lo
        county := county
        distance_km := round2 distance_km
        predicted_price_ksh := some price
        predicted_eta_hours := some (round2 eta_hours) }
    (.ok, hist ++ [entry])
  | _, _, _, _, _ => (.invalidInput, hist)

/-- The predicted_eta_hours field of a successful eta response, none
otherwise. -/
def EtaResponse.etaOf : EtaResponse → Option ℚ
  | .ok e _ _ => some e
  | _ => none

/-- The mode field of a successful eta response, none otherwise. -/
def EtaResponse.modeTag : EtaResponse → Option String
  | .ok _ _ m => some m
  | _ => none

/-- Sample timestamp used by the concrete witnesses. -/
def tsW : Timestamp := { iso := "t", hour := 12, dayofweek := 3, epoch := 0 }

/-- Sample environment with no trained model: geodesic stub returning
10 km, geocoder stub that never finds anything. -/
def envRuleW : Env :=
  { apiKey := "k"
    config := defaultConfig
    model := none
    geo := fun _ _ => 10
    geocode := fun _ => .notFound }

/-- Sample loaded model: constant regressor returning 100, empty
encoder vocabulary. -/
def mpW : ModelPredictor :=
  { classes := []
    transform := fun _ => 0
    predict := fun _ _ _ _ => 100 }

/-- Sample environment with a loaded model. -/
def envModelW : Env :=
  { apiKey := "k"
    config := defaultConfig
    model := some mpW
    geo := fun _ _ => 10
    geocode := fun _ => .notFound }

/-- Sample /predict-rate request: correct key, explicit nonzero
coordinates, Nairobi address, order total 1000. -/
def reqRateW : RateRequest :=
  { apiKey := some "k"
    latitude := some (.num 2)
    longitude := some (.num 3)
    billing_address_2 := some "Nairobi"
    order_total := some 1000
    timestamp := tsW }

/-- Sample /predict-rate request whose order total 200 is below the
default minimum 500. -/
def reqLowW : RateRequest := { reqRateW with order_total := some 200 }

/-- Sample /predict-eta request: no key header, explicit coordinates,
Nairobi address. -/
def reqEtaW : EtaRequest :=
  { apiKey := none
    latitude := some (.num 2)
    longitude := some (.num 3)
    billing_address_2 := some "Nairobi"
    timestamp := tsW }

/-- Sample /log-delivery request: delivery two hours after the order,
actual price 250, and a caller-supplied distance_km of 999 that the
handler must ignore. -/
def reqLogW : LogRequest :=
  { apiKey := none
    order_timestamp := some tsW
    delivered_timestamp := some { tsW with epoch := 7200 }
    latitude := some (.num 4)
    longitude := some (.num 5)
    county := some "Nairobi"
    actual_price_ksh := some (.num 250)
    distance_km := some (.num 999) }

/-- Wrong-key variant of the sample /predict-eta request used against
C6. -/
def reqEtaWrongKey : EtaRequest := { reqEtaW with apiKey := some "wrong" }

/-- Sample /predict-rate request whose order total 5000 is above the
default free-shipping threshold 3000. -/
def reqHighW : RateRequest := { reqRateW with order_total := some 5000 }

/-- Environment whose geocoder stub resolves every address to the point
(7, 8). -/
def envGeoW : Env := { envRuleW with geocode := fun _ => .found 7 8 }

/-- Sample /predict-rate request carrying a non-numeric latitude
value. -/
def reqBadCoordW : RateRequest :=
  { reqRateW with latitude := some (.nonNumeric "abc") }

/-- Non-numeric-latitude variant of the sample /predict-eta request. -/
def reqEtaBadW : EtaRequest :=
  { reqEtaW with latitude := some (.nonNumeric "x") }

/-- Non-numeric-latitude variant of the sample /log-delivery
request. -/
def reqLogBadW : LogRequest :=
  { reqLogW with latitude := some (.nonNumeric "y") }

/-- Alternative geocoder stub used by the C10 witness. -/
def gW : String → GeocodeResult := fun _ => .found 9 9

/-- C1: for a /predict-rate request handled without a trained model,
once authentication, coordinate resolution and the minimum-order gate
have passed, the returned price is the rule table of the spec: in a
region whose label contains nairobi case-insensitively, 0 when the
order total reaches the free-shipping threshold, the base fee when the
distance is at most 1.8 km, and base fee plus (distance - 1.8) times
the per-km rate beyond that; in every other region, 0 when the order
total reaches the free-shipping threshold and flat rate plus zone
surcharge otherwise (all prices rounded to 2 decimals in the
response). -/
theorem C1_rule_based_pricing (env : Env) (req : RateRequest)
    (hist : List HistoryRecord) (la lo : ℚ)
    (hauth : req.apiKey = some env.apiKey)
    (hres : resolveCoords env req (cityOf req) = .ok (la, lo))
    (hmodel : env.model = none)
    (hgate : env.config.min_delivery_order ≤ req.order_total.getD 0) :
    (predict_rate env req hist).1 =
      .priced (round2 (env.geo BASE_LOCATION (la, lo)))
        (round2
          (if containsNairobi (cityOf req) then
            (if env.config.free_shipping_minimum ≤ req.order_total.getD 0
             then 0
             else if env.geo BASE_LOCATION (la, lo) ≤ 1.8 then
               env.config.base_fee_nairobi
             else env.config.base_fee_nairobi +
               (env.geo BASE_LOCATION (la, lo) - 1.8) *
                 env.config.rate_per_km_nairobi)
           else
            (if env.config.free_shipping_minimum ≤ req.order_total.getD 0
             then 0
             else env.config.flat_rate_others + env.config.zone_surcharge)))
        "rule-based" (cityOf req) := by
  have hlt : ¬ req.order_total.getD 0 < env.config.min_delivery_order :=
    not_lt.mpr hgate
  simp only [predict_rate, hauth, if_pos, hres, hmodel, if_neg hlt,
    ruleBasedPrice]
  congr 1
  split_ifs <;> ring_nf

/-- C1 witness: the theorem applied to the sample rule-based
environment and request. -/
theorem C1_rule_based_pricing_witness :
    reqRateW.apiKey = some envRuleW.apiKey ∧
      resolveCoords envRuleW reqRateW (cityOf reqRateW) = .ok (2, 3) ∧
      envRuleW.model = none ∧
      envRuleW.config.min_delivery_order ≤ reqRateW.order_total.getD 0 ∧
      (predict_rate envRuleW reqRateW []).1 =
        .priced (round2 (envRuleW.geo BASE_LOCATION (2, 3)))
          (round2
            (if containsNairobi (cityOf reqRateW) then
              (if envRuleW.config.free_shipping_minimum ≤
                  reqRateW.order_total.getD 0 then 0
               else if envRuleW.geo BASE_LOCATION (2, 3) ≤ 1.8 then
                 envRuleW.config.base_fee_nairobi
               else envRuleW.config.base_fee_nairobi +
                 (envRuleW.geo BASE_LOCATION (2, 3) - 1.8) *
                   envRuleW.config.rate_per_km_nairobi)
             else
              (if envRuleW.config.free_shipping_minimum ≤
                  reqRateW.order_total.getD 0 then 0
               else envRuleW.config.flat_rate_others +
                 envRuleW.config.zone_surcharge)))
          "rule-based" (cityOf reqRateW) := by
  have h1 : reqRateW.apiKey = some envRuleW.apiKey := rfl
  have h2 : resolveCoords envRuleW reqRateW (cityOf reqRateW) = .ok (2, 3) := by
    norm_num [resolveCoords, parsedCoords, reqRateW, toFloat?]
  have h3 : envRuleW.model = none := rfl
  have h4 : envRuleW.config.min_delivery_order ≤
      reqRateW.order_total.getD 0 := by
    norm_num [envRuleW, reqRateW, defaultConfig]
  exact ⟨h1, h2, h3, h4, C1_rule_based_pricing envRuleW reqRateW [] 2 3 h1 h2 h3 h4⟩

/-- C2: a /predict-rate request that passes authentication and
coordinate resolution but whose order total is strictly below the
configured minimum order value is answered with the eligible-false
rejection carrying the configured minimum; the response carries no
price, no history record is written, and the outcome is the same
whatever trained model is or is not loaded (the gate precedes both
pricing branches). -/
theorem C2_minimum_order_gate (env : Env) (req : RateRequest)
    (hist : List HistoryRecord) (la lo : ℚ)
    (hauth : req.apiKey = some env.apiKey)
    (hres : resolveCoords env req (cityOf req) = .ok (la, lo))
    (hlow : req.order_total.getD 0 < env.config.min_delivery_order) :
    (predict_rate env req hist).1 =
        .belowMinimum false env.config.min_delivery_order ∧
      ((predict_rate env req hist).1).priceOf = none ∧
      (predict_rate env req hist).2 = hist ∧
      ∀ om : Option ModelPredictor,
        predict_rate { env with model := om } req hist =
          predict_rate env req hist := by
  have key : ∀ om : Option ModelPredictor,
      predict_rate { env with model := om } req hist =
        (.belowMinimum false env.config.min_delivery_order, hist) := by
    intro om
    have hres2 : resolveCoords { env with model := om } req (cityOf req) =
        .ok (la, lo) := hres
    simp only [predict_rate, hauth, if_pos, hres2, if_pos hlow]
  have base : predict_rate env req hist =
      (.belowMinimum false env.config.min_delivery_order, hist) := by
    simp only [predict_rate, hauth, if_pos, hres, if_pos hlow]
  refine ⟨?_, ?_, ?_, fun om => ?_⟩
  · rw [base]
  · rw [base]; rfl
  · rw [base]
  · rw [key om, base]

/-- C2 witness: the theorem applied to the sample environment and the
low-total request. -/
theorem C2_minimum_order_gate_witness :
    reqLowW.apiKey = some envRuleW.apiKey ∧
      resolveCoords envRuleW reqLowW (cityOf reqLowW) = .ok (2, 3) ∧
      reqLowW.order_total.getD 0 < envRuleW.config.min_delivery_order ∧
      (predict_rate envRuleW reqLowW []).1 =
        .belowMinimum false envRuleW.config.min_delivery_order := by
  have h1 : reqLowW.apiKey = some envRuleW.apiKey := rfl
  have h2 : resolveCoords envRuleW reqLowW (cityOf reqLowW) = .ok (2, 3) := by
    norm_num [resolveCoords, parsedCoords, reqLowW, reqRateW, toFloat?]
  have h3 : reqLowW.order_total.getD 0 < envRuleW.config.min_delivery_order := by
    norm_num [envRuleW, reqLowW, reqRateW, defaultConfig]
  exact ⟨h1, h2, h3, (C2_minimum_order_gate envRuleW reqLowW [] 2 3 h1 h2 h3).1⟩

/-- C7: for a /predict-eta request whose coordinates parse, the
returned ETA follows the rule table: in a region whose label contains
nairobi case-insensitively, 0.5 hours up to 1.8 km, 1.0 hours up to
5 km, 1.5 hours beyond; 6.0 hours in every other region; the mode is
rule-based and the outcome does not depend on the loaded model at all
(the model never supplies an ETA). -/
theorem C7_eta_policy (env : Env) (req : EtaRequest)
    (hist : List HistoryRecord) (la lo : ℚ)
    (hla : req.latitude.bind toFloat? = some la)
    (hlo : req.longitude.bind toFloat? = some lo) :
    ((predict_eta env req hist).1).etaOf =
        some (if containsNairobi (countyOf req) then
               (if env.geo BASE_LOCATION (la, lo) ≤ 1.8 then 0.5
                else if env.geo BASE_LOCATION (la, lo) ≤ 5 then 1
                else 1.5)
              else 6) ∧
      ((predict_eta env req hist).1).modeTag = some "rule-based" ∧
      ∀ om : Option ModelPredictor,
        predict_eta { env with model := om } req hist =
          predict_eta env req hist := by
  have hconst : ∀ (county : String) (d : ℚ),
      round2 (etaRule county d) = etaRule county d := by
    intro county d
    unfold etaRule
    split_ifs <;> norm_num [round2, round_eq]
  refine ⟨?_, ?_, fun om => rfl⟩
  · simp only [predict_eta, hla, hlo, EtaResponse.etaOf, hconst]
    rfl
  · simp only [predict_eta, hla, hlo, EtaResponse.modeTag]

/-- C7 witness: the theorem applied to the sample environment and
request. -/
theorem C7_eta_policy_witness :
    reqEtaW.latitude.bind toFloat? = some 2 ∧
      reqEtaW.longitude.bind toFloat? = some 3 ∧
      ((predict_eta envRuleW reqEtaW []).1).etaOf =
        some (if containsNairobi (countyOf reqEtaW) then
               (if envRuleW.geo BASE_LOCATION (2, 3) ≤ 1.8 then 0.5
                else if envRuleW.geo BASE_LOCATION (2, 3) ≤ 5 then 1
                else 1.5)
              else 6) := by
  have h1 : reqEtaW.latitude.bind toFloat? = some 2 := rfl
  have h2 : reqEtaW.longitude.bind toFloat? = some 3 := rfl
  exact ⟨h1, h2, (C7_eta_policy envRuleW reqEtaW [] 2 3 h1 h2).1⟩

/-- C4: every record appended to the history store carries as
distance_km the external geodesic distance from BASE_LOCATION to the
coordinates of the record itself, rounded to 2 decimals: for /predict-eta, for
/log-delivery, and /log-delivery ignores any caller-supplied
distance_km field entirely. -/
theorem C4_history_record_distance (env : Env) (ereq : EtaRequest)
    (lreq : LogRequest) (hist hist2 : List HistoryRecord)
    (la lo la2 lo2 : ℚ)
    (hela : ereq.latitude.bind toFloat? = some la)
    (helo : ereq.longitude.bind toFloat? = some lo)
    (hlot : lreq.order_timestamp.isSome = true)
    (hldt : lreq.delivered_timestamp.isSome = true)
    (hlla : lreq.latitude.bind toFloat? = some la2)
    (hllo : lreq.longitude.bind toFloat? = some lo2)
    (hlp : (toFloat? (lreq.actual_price_ksh.getD (.num 0))).isSome = true) :
    (∃ r : HistoryRecord,
        (predict_eta env ereq hist).2 = hist ++ [r] ∧
        r.latitude = la ∧ r.longitude = lo ∧
        r.distance_km = round2 (env.geo BASE_LOCATION (la, lo))) ∧
      (∃ r : HistoryRecord,
        (log_delivery env lreq hist2).2 = hist2 ++ [r] ∧
        r.latitude = la2 ∧ r.longitude = lo2 ∧
        r.distance_km = round2 (env.geo BASE_LOCATION (la2, lo2))) ∧
      ∀ dsup : Option JNum,
        log_delivery env { lreq with distance_km := dsup } hist2 =
          log_delivery env lreq hist2 := by
  refine ⟨?_, ?_, fun dsup => rfl⟩
  · simp only [predict_eta, hela, helo]
    exact ⟨_, rfl, rfl, rfl, rfl⟩
  · obtain ⟨ots, hots⟩ := Option.isSome_iff_exists.mp hlot
    obtain ⟨dts, hdts⟩ := Option.isSome_iff_exists.mp hldt
    obtain ⟨pr, hpr⟩ := Option.isSome_iff_exists.mp hlp
    simp only [log_delivery, hots, hdts, hlla, hllo, hpr]
    exact ⟨_, rfl, rfl, rfl, rfl⟩

/-- C4 witness: the theorem applied to the sample eta and log
requests. -/
theorem C4_history_record_distance_witness :
    reqEtaW.latitude.bind toFloat? = some 2 ∧
      reqLogW.latitude.bind toFloat? = some 4 ∧
      (∃ r : HistoryRecord,
        (predict_eta envRuleW reqEtaW []).2 = [] ++ [r] ∧
        r.latitude = 2 ∧ r.longitude = 3 ∧
        r.distance_km = round2 (envRuleW.geo BASE_LOCATION (2, 3))) ∧
      (∃ r : HistoryRecord,
        (log_delivery envRuleW reqLogW []).2 = [] ++ [r] ∧
        r.latitude = 4 ∧ r.longitude = 5 ∧
        r.distance_km = round2 (envRuleW.geo BASE_LOCATION (4, 5))) := by
  have h1 : reqEtaW.latitude.bind toFloat? = some 2 := rfl
  have h2 : reqEtaW.longitude.bind toFloat? = some 3 := rfl
  have h3 : reqLogW.order_timestamp.isSome = true := rfl
  have h4 : reqLogW.delivered_timestamp.isSome = true := rfl
  have h5 : reqLogW.latitude.bind toFloat? = some 4 := rfl
  have h6 : reqLogW.longitude.bind toFloat? = some 5 := rfl
  have h7 : (toFloat? (reqLogW.actual_price_ksh.getD (.num 0))).isSome = true :=
    rfl
  obtain ⟨p1, p2, _⟩ := C4_history_record_distance envRuleW reqEtaW reqLogW
    [] [] 2 3 4 5 h1 h2 h3 h4 h5 h6 h7
  exact ⟨h1, h5, p1, p2⟩

/-- C5 counterexample: with the sample rule-based environment and the
valid sample request, /predict-rate reaches the priced terminal state
(mode rule-based) while the history store stays empty: the priced
result is never handed to the history recorder, contradicting the
claim that every priced /predict-rate response is appended to the
record store before responding. -/
theorem C5_counterexample :
    ((predict_rate envRuleW reqRateW []).1).modeOf = some "rule-based" ∧
      (predict_rate envRuleW reqRateW []).2 = ([] : List HistoryRecord) := by
  have hauth : reqRateW.apiKey = some envRuleW.apiKey := rfl
  have hmodel : envRuleW.model = none := rfl
  have hres : resolveCoords envRuleW reqRateW (cityOf reqRateW) = .ok (2, 3) := by
    norm_num [resolveCoords, parsedCoords, reqRateW, toFloat?]
  have hlt : ¬ reqRateW.order_total.getD 0 <
      envRuleW.config.min_delivery_order := by
    norm_num [reqRateW, envRuleW, defaultConfig]
  refine ⟨?_, ?_⟩ <;>
    simp only [predict_rate, hauth, if_pos, hres, hmodel, if_neg hlt,
      RateResponse.modeOf]

/-- C5 amended: only /predict-eta hands its result to the history
recorder before responding (on success it appends exactly one record);
/predict-rate never writes to the history store, in any of its
outcomes. -/
theorem C5_history_on_success (env : Env) (req : EtaRequest)
    (hist : List HistoryRecord) (la lo : ℚ)
    (hla : req.latitude.bind toFloat? = some la)
    (hlo : req.longitude.bind toFloat? = some lo) :
    (∃ r : HistoryRecord, (predict_eta env req hist).2 = hist ++ [r]) ∧
      ∀ (env2 : Env) (rreq : RateRequest) (h2 : List HistoryRecord),
        (predict_rate env2 rreq h2).2 = h2 := by
  constructor
  · simp only [predict_eta, hla, hlo]
    exact ⟨_, rfl⟩
  · intro env2 rreq h2
    by_cases hk : rreq.apiKey = some env2.apiKey
    · simp only [predict_rate, if_pos hk]
      rcases hr : resolveCoords env2 rreq (cityOf rreq) with e | ⟨la2, lo2⟩
      · simp [hr]
      · simp only [hr]
        by_cases hg : rreq.order_total.getD 0 <
            env2.config.min_delivery_order
        · simp [hg]
        · rcases hm : env2.model with _ | m <;> simp [hg, hm]
    · simp [predict_rate, if_neg hk]

/-- C5 witness: the amended theorem applied to the sample environment
and eta request. -/
theorem C5_history_on_success_witness :
    reqEtaW.latitude.bind toFloat? = some 2 ∧
      (∃ r : HistoryRecord, (predict_eta envRuleW reqEtaW []).2 = [] ++ [r]) ∧
      (predict_rate envRuleW reqRateW []).2 = ([] : List HistoryRecord) := by
  have h1 : reqEtaW.latitude.bind toFloat? = some 2 := rfl
  have h2 : reqEtaW.longitude.bind toFloat? = some 3 := rfl
  obtain ⟨p1, p2⟩ := C5_history_on_success envRuleW reqEtaW [] 2 3 h1 h2
  exact ⟨h1, p1, p2 envRuleW reqRateW []⟩

/-- C3 counterexample: with the model loaded, a successfully priced
/predict-rate response carries the mode string "AI model", not the
string "ai-model" that the claim requires. -/
theorem C3_counterexample :
    ((predict_rate envModelW reqRateW []).1).modeOf = some "AI model" ∧
      ("AI model" : String) ≠ "ai-model" := by
  have hauth : reqRateW.apiKey = some envModelW.apiKey := rfl
  have hmodel : envModelW.model = some mpW := rfl
  have hres : resolveCoords envModelW reqRateW (cityOf reqRateW) =
      .ok (2, 3) := by
    norm_num [resolveCoords, parsedCoords, reqRateW, toFloat?]
  have hlt : ¬ reqRateW.order_total.getD 0 <
      envModelW.config.min_delivery_order := by
    norm_num [reqRateW, envModelW, defaultConfig]
  refine ⟨?_, by decide⟩
  simp only [predict_rate, hauth, if_pos, hres, hmodel, if_neg hlt,
    RateResponse.modeOf]

/-- C3 amended: for every successfully priced /predict-rate request the
mode is exactly "rule-based" when no trained model is loaded, and
exactly "AI model" (not "ai-model") when the model is loaded and its
prediction succeeds; the mode always matches the path that produced
the price. -/
theorem C3_mode_consistency (env : Env) (req : RateRequest)
    (hist : List HistoryRecord) (la lo : ℚ)
    (hauth : req.apiKey = some env.apiKey)
    (hres : resolveCoords env req (cityOf req) = .ok (la, lo))
    (hgate : env.config.min_delivery_order ≤ req.order_total.getD 0) :
    (env.model = none →
      ((predict_rate env req hist).1).modeOf = some "rule-based") ∧
      ∀ m : ModelPredictor, env.model = some m →
        ((predict_rate env req hist).1).modeOf = some "AI model" := by
  have hlt : ¬ req.order_total.getD 0 < env.config.min_delivery_order :=
    not_lt.mpr hgate
  constructor
  · intro hmodel
    simp only [predict_rate, hauth, if_pos, hres, hmodel, if_neg hlt,
      RateResponse.modeOf]
  · intro m hmodel
    simp only [predict_rate, hauth, if_pos, hres, hmodel, if_neg hlt,
      RateResponse.modeOf]

/-- C3 witness: the amended theorem applied to the sample environments
with and without a loaded model. -/
theorem C3_mode_consistency_witness :
    envRuleW.model = none ∧
      ((predict_rate envRuleW reqRateW []).1).modeOf = some "rule-based" ∧
      ((predict_rate envModelW reqRateW []).1).modeOf = some "AI model" := by
  have hres1 : resolveCoords envRuleW reqRateW (cityOf reqRateW) =
      .ok (2, 3) := by
    norm_num [resolveCoords, parsedCoords, reqRateW, toFloat?]
  have hres2 : resolveCoords envModelW reqRateW (cityOf reqRateW) =
      .ok (2, 3) := hres1
  have hgate1 : envRuleW.config.min_delivery_order ≤
      reqRateW.order_total.getD 0 := by
    norm_num [reqRateW, envRuleW, defaultConfig]
  have hgate2 : envModelW.config.min_delivery_order ≤
      reqRateW.order_total.getD 0 := hgate1
  refine ⟨rfl, ?_, ?_⟩
  · exact (C3_mode_consistency envRuleW reqRateW [] 2 3 rfl hres1 hgate1).1 rfl
  · exact (C3_mode_consistency envModelW reqRateW [] 2 3 rfl hres2 hgate2).2
      _ rfl

/-- C6 counterexample: a /predict-eta request whose key header does not
match the configured key is still fully processed: it gets a
rule-based ETA response and a history record is written (a side
effect), contradicting the claim that every endpoint rejects a
mismatched key before any processing. -/
theorem C6_counterexample :
    reqEtaWrongKey.apiKey ≠ some envRuleW.apiKey ∧
      ((predict_eta envRuleW reqEtaWrongKey []).1).modeTag =
        some "rule-based" ∧
      (predict_eta envRuleW reqEtaWrongKey []).2 ≠
        ([] : List HistoryRecord) := by
  have hla : reqEtaWrongKey.latitude.bind toFloat? = some 2 := rfl
  have hlo : reqEtaWrongKey.longitude.bind toFloat? = some 3 := rfl
  refine ⟨by decide, ?_, ?_⟩
  · simp only [predict_eta, hla, hlo, EtaResponse.modeTag]
  · simp only [predict_eta, hla, hlo]
    simp

/-- C6 amended: only /predict-rate compares the X-API-Key header with
the configured key (by exact string equality, any mismatch or absence
giving the Unauthorized rejection with no side effect); /predict-eta
and /log-delivery read no key header at all, so their behaviour is
identical under any header value. -/
theorem C6_auth_only_predict_rate :
    (∀ (env : Env) (req : RateRequest) (hist : List HistoryRecord),
        req.apiKey ≠ some env.apiKey →
        predict_rate env req hist = (.unauthorized, hist)) ∧
      (∀ (env : Env) (req : EtaRequest) (hist : List HistoryRecord)
          (k1 k2 : Option String),
        predict_eta env { req with apiKey := k1 } hist =
          predict_eta env { req with apiKey := k2 } hist) ∧
      (∀ (env : Env) (req : LogRequest) (hist : List HistoryRecord)
          (k1 k2 : Option String),
        log_delivery env { req with apiKey := k1 } hist =
          log_delivery env { req with apiKey := k2 } hist) := by
  refine ⟨fun env req hist h => ?_, fun _ _ _ _ _ => rfl,
    fun _ _ _ _ _ => rfl⟩
  simp only [predict_rate, if_neg h]

/-- C6 witness: the amended theorem applied to a concrete mismatched
key on /predict-rate and concrete header values on the other two
endpoints. -/
theorem C6_auth_only_predict_rate_witness :
    ({ reqRateW with apiKey := some "wrong" } : RateRequest).apiKey ≠
        some envRuleW.apiKey ∧
      predict_rate envRuleW { reqRateW with apiKey := some "wrong" } [] =
        (.unauthorized, []) ∧
      predict_eta envRuleW { reqEtaW with apiKey := some "wrong" } [] =
        predict_eta envRuleW { reqEtaW with apiKey := none } [] := by
  have h : ({ reqRateW with apiKey := some "wrong" } : RateRequest).apiKey ≠
      some envRuleW.apiKey := by decide
  exact ⟨h, C6_auth_only_predict_rate.1 envRuleW _ [] h,
    C6_auth_only_predict_rate.2.1 envRuleW reqEtaW [] (some "wrong") none⟩

/-- C8 counterexample: with the model loaded and an order total of 5000
(above the free-shipping threshold 3000), the priced /predict-rate
response carries the model price 100, not 0: the free-shipping rule is
not applied on the model path, contradicting the claim that the price
is 0 regardless of whether the trained model is available. -/
theorem C8_counterexample :
    envModelW.config.free_shipping_minimum ≤ reqHighW.order_total.getD 0 ∧
      ((predict_rate envModelW reqHighW []).1).priceOf = some 100 ∧
      (100 : ℚ) ≠ 0 := by
  have hauth : reqHighW.apiKey = some envModelW.apiKey := rfl
  have hmodel : envModelW.model = some mpW := rfl
  have hres : resolveCoords envModelW reqHighW (cityOf reqHighW) =
      .ok (2, 3) := by
    norm_num [resolveCoords, parsedCoords, reqHighW, reqRateW, toFloat?]
  have hlt : ¬ reqHighW.order_total.getD 0 <
      envModelW.config.min_delivery_order := by
    norm_num [reqHighW, reqRateW, envModelW, defaultConfig]
  refine ⟨by norm_num [reqHighW, reqRateW, envModelW, defaultConfig],
    ?_, by norm_num⟩
  simp only [predict_rate, hauth, if_pos, hres, hmodel, if_neg hlt,
    RateResponse.priceOf, Option.some.injEq]
  norm_num [modelPrice, mpW, round2, round_eq]

/-- C8 amended: for a /predict-rate request that passes the
minimum-order gate and whose order total reaches the free-shipping
threshold, the price is 0 regardless of region and distance whenever
the trained model is unavailable; when the model is available its
prediction is returned unchanged, with no free-shipping override. -/
theorem C8_free_shipping (env : Env) (req : RateRequest)
    (hist : List HistoryRecord) (la lo : ℚ)
    (hauth : req.apiKey = some env.apiKey)
    (hres : resolveCoords env req (cityOf req) = .ok (la, lo))
    (hgate : env.config.min_delivery_order ≤ req.order_total.getD 0)
    (hfree : env.config.free_shipping_minimum ≤ req.order_total.getD 0) :
    (env.model = none →
      ((predict_rate env req hist).1).priceOf = some 0) ∧
      ∀ m : ModelPredictor, env.model = some m →
        ((predict_rate env req hist).1).priceOf =
          some (round2 (modelPrice m (cityOf req)
            (env.geo BASE_LOCATION (la, lo)) req.timestamp)) := by
  have hlt : ¬ req.order_total.getD 0 < env.config.min_delivery_order :=
    not_lt.mpr hgate
  constructor
  · intro hmodel
    simp only [predict_rate, hauth, if_pos, hres, hmodel, if_neg hlt,
      RateResponse.priceOf, Option.some.injEq]
    simp only [ruleBasedPrice, if_pos hfree, ite_self]
    norm_num [round2, round_eq]
  · intro m hmodel
    simp only [predict_rate, hauth, if_pos, hres, hmodel, if_neg hlt,
      RateResponse.priceOf]

/-- C8 witness: the amended theorem applied to the rule-based sample
environment and the high-total request. -/
theorem C8_free_shipping_witness :
    envRuleW.model = none ∧
      envRuleW.config.free_shipping_minimum ≤
        reqHighW.order_total.getD 0 ∧
      ((predict_rate envRuleW reqHighW []).1).priceOf = some 0 := by
  have hres : resolveCoords envRuleW reqHighW (cityOf reqHighW) =
      .ok (2, 3) := by
    norm_num [resolveCoords, parsedCoords, reqHighW, reqRateW, toFloat?]
  have hgate : envRuleW.config.min_delivery_order ≤
      reqHighW.order_total.getD 0 := by
    norm_num [reqHighW, reqRateW, envRuleW, defaultConfig]
  have hfree : envRuleW.config.free_shipping_minimum ≤
      reqHighW.order_total.getD 0 := by
    norm_num [reqHighW, reqRateW, envRuleW, defaultConfig]
  exact ⟨rfl, hfree,
    (C8_free_shipping envRuleW reqHighW [] 2 3 rfl hres hgate hfree).1 rfl⟩

/-- C9 counterexample: a /predict-rate request with a non-numeric
latitude is not answered with any invalid-coordinate error; the
handler silently geocodes the billing address and returns a priced
response whose distance comes from the geocoded point, contradicting
the claim that a non-numeric coordinate makes the distance computation
fail with an error surfaced to the caller. -/
theorem C9_counterexample :
    reqBadCoordW.latitude = some (.nonNumeric "abc") ∧
      ((predict_rate envGeoW reqBadCoordW []).1).modeOf =
        some "rule-based" ∧
      ((predict_rate envGeoW reqBadCoordW []).1).distOf =
        some (round2 (envGeoW.geo BASE_LOCATION (7, 8))) := by
  have hauth : reqBadCoordW.apiKey = some envGeoW.apiKey := rfl
  have hmodel : envGeoW.model = none := rfl
  have hres : resolveCoords envGeoW reqBadCoordW (cityOf reqBadCoordW) =
      .ok (7, 8) := rfl
  have hlt : ¬ reqBadCoordW.order_total.getD 0 <
      envGeoW.config.min_delivery_order := by
    norm_num [reqBadCoordW, reqRateW, envGeoW, envRuleW, defaultConfig]
  refine ⟨rfl, ?_, ?_⟩ <;>
    simp only [predict_rate, hauth, if_pos, hres, hmodel, if_neg hlt,
      RateResponse.modeOf, RateResponse.distOf]

/-- C9 amended: a non-numeric coordinate value makes /predict-eta and
/log-delivery fail with the invalid-input error, surfaced to the
caller with no distance produced and no record written; /predict-rate
instead falls back silently to geocoding the billing address and, when
geocoding succeeds and the gate passes, prices the request with the
distance of the geocoded point.  The service code performs no
latitude/longitude range validation of its own: out-of-range numeric
values are passed unchecked to the external geodesic routine. -/
theorem C9_invalid_coordinate_handling (env : Env) (ereq : EtaRequest)
    (lreq : LogRequest) (rreq : RateRequest)
    (hist hist2 hist3 : List HistoryRecord) (s1 s2 s3 : String)
    (gla glo : ℚ)
    (he : ereq.latitude = some (.nonNumeric s1))
    (hl : lreq.latitude = some (.nonNumeric s2))
    (hr : rreq.latitude = some (.nonNumeric s3))
    (hauth : rreq.apiKey = some env.apiKey)
    (hgc : env.geocode (cityOf rreq ++ ", Kenya") = .found gla glo)
    (hgate : env.config.min_delivery_order ≤ rreq.order_total.getD 0) :
    predict_eta env ereq hist = (.invalidInput, hist) ∧
      log_delivery env lreq hist2 = (.invalidInput, hist2) ∧
      ((predict_rate env rreq hist3).1).distOf =
        some (round2 (env.geo BASE_LOCATION (gla, glo))) := by
  have hla : ereq.latitude.bind toFloat? = none := by
    simp [he, toFloat?]
  have hlla : lreq.latitude.bind toFloat? = none := by
    simp [hl, toFloat?]
  refine ⟨?_, ?_, ?_⟩
  · rcases hq : ereq.longitude.bind toFloat? with _ | q <;>
      simp [predict_eta, hla, hq]
  · rcases h1 : lreq.order_timestamp with _ | ots <;>
      rcases h2 : lreq.delivered_timestamp with _ | dts <;>
        rcases hq : lreq.longitude.bind toFloat? with _ | q <;>
          rcases hp : toFloat? (lreq.actual_price_ksh.getD (.num 0))
              with _ | p <;>
            simp [log_delivery, h1, h2, hlla, hq, hp]
  · have hpc : parsedCoords rreq = (none, none) := by
      rcases hj : rreq.longitude with _ | j
      · simp [parsedCoords, hr, hj]
      · simp [parsedCoords, hr, hj, toFloat?]
    have hres : resolveCoords env rreq (cityOf rreq) = .ok (gla, glo) := by
      simp [resolveCoords, hpc, geocodeStep, hgc]
    have hlt : ¬ rreq.order_total.getD 0 <
        env.config.min_delivery_order := not_lt.mpr hgate
    rcases hm : env.model with _ | m <;>
      simp only [predict_rate, hauth, if_pos, hres, hm, if_neg hlt,
        RateResponse.distOf]

/-- C9 witness: the amended theorem applied to the non-numeric sample
requests against the geocoding environment. -/
theorem C9_invalid_coordinate_handling_witness :
    reqEtaBadW.latitude = some (.nonNumeric "x") ∧
      reqLogBadW.latitude = some (.nonNumeric "y") ∧
      reqBadCoordW.latitude = some (.nonNumeric "abc") ∧
      predict_eta envGeoW reqEtaBadW [] = (.invalidInput, []) ∧
      log_delivery envGeoW reqLogBadW [] = (.invalidInput, []) ∧
      ((predict_rate envGeoW reqBadCoordW []).1).distOf =
        some (round2 (envGeoW.geo BASE_LOCATION (7, 8))) := by
  have hgc : envGeoW.geocode (cityOf reqBadCoordW ++ ", Kenya") =
      .found 7 8 := rfl
  have hgate : envGeoW.config.min_delivery_order ≤
      reqBadCoordW.order_total.getD 0 := by
    norm_num [reqBadCoordW, reqRateW, envGeoW, envRuleW, defaultConfig]
  obtain ⟨p1, p2, p3⟩ := C9_invalid_coordinate_handling envGeoW reqEtaBadW
    reqLogBadW reqBadCoordW [] [] [] "x" "y" "abc" 7 8 rfl rfl rfl rfl
    hgc hgate
  exact ⟨rfl, rfl, rfl, p1, p2, p3⟩

/-- C10: explicitly supplied coordinates are honoured by /predict-rate
exactly when both values parse as floats and both are non-zero: in
that case the geocoder is never consulted and the response distance is
computed from the supplied point; when either supplied coordinate
fails to parse or equals 0 (Python float truthiness), the request
behaves exactly as if no coordinates had been supplied at all, falling
through to geocoding of the billing address, so a point on the equator
or prime meridian is never honoured as given. -/
theorem C10_coordinate_truthiness :
    (∀ (env : Env) (req : RateRequest) (hist : List HistoryRecord)
        (la lo : ℚ) (g : String → GeocodeResult),
      req.latitude = some (.num la) → req.longitude = some (.num lo) →
      la ≠ 0 → lo ≠ 0 →
      predict_rate { env with geocode := g } req hist =
        predict_rate env req hist) ∧
      (∀ (env : Env) (req : RateRequest) (hist : List HistoryRecord)
          (la lo : ℚ),
        req.latitude = some (.num la) → req.longitude = some (.num lo) →
        la ≠ 0 → lo ≠ 0 →
        req.apiKey = some env.apiKey →
        env.config.min_delivery_order ≤ req.order_total.getD 0 →
        ((predict_rate env req hist).1).distOf =
          some (round2 (env.geo BASE_LOCATION (la, lo)))) ∧
      (∀ (env : Env) (req : RateRequest) (hist : List HistoryRecord)
          (jla jlo : JNum),
        req.latitude = some jla → req.longitude = some jlo →
        (toFloat? jla = none ∨ toFloat? jlo = none ∨
          jla = .num 0 ∨ jlo = .num 0) →
        predict_rate env req hist =
          predict_rate env
            { req with latitude := none, longitude := none } hist) := by
  have hok : ∀ (env : Env) (req : RateRequest) (la lo : ℚ),
      req.latitude = some (.num la) → req.longitude = some (.num lo) →
      la ≠ 0 → lo ≠ 0 →
      resolveCoords env req (cityOf req) = .ok (la, lo) := by
    intro env req la lo h1 h2 h3 h4
    have hpc : parsedCoords req = (some la, some lo) := by
      simp [parsedCoords, h1, h2, toFloat?]
    simp [resolveCoords, hpc, h3, h4]
  refine ⟨?_, ?_, ?_⟩
  · intro env req hist la lo g h1 h2 h3 h4
    have e1 := hok { env with geocode := g } req la lo h1 h2 h3 h4
    have e2 := hok env req la lo h1 h2 h3 h4
    by_cases hk : req.apiKey = some env.apiKey
    · simp only [predict_rate, hk, if_pos, e1, e2]
    · simp only [predict_rate, if_neg hk]
  · intro env req hist la lo h1 h2 h3 h4 hk hg
    have e2 := hok env req la lo h1 h2 h3 h4
    have hlt := not_lt.mpr hg
    rcases hm : env.model with _ | m <;>
      simp only [predict_rate, hk, if_pos, e2, hm, if_neg hlt,
        RateResponse.distOf]
  · intro env req hist jla jlo h1 h2 hbad
    have hnum : ∀ q : ℚ, toFloat? (.num q) = some q := fun _ => rfl
    have hgeo : ∀ (env2 : Env) (city : String),
        resolveCoords env2 req city = geocodeStep env2 city := by
      intro env2 city
      rcases hbad with hb | hb | hb | hb
      · simp [resolveCoords, parsedCoords, h1, h2, hb]
      · rcases hfa : toFloat? jla with _ | qa
        · simp [resolveCoords, parsedCoords, h1, h2, hfa]
        · simp [resolveCoords, parsedCoords, h1, h2, hfa, hb]
      · subst hb
        rcases hfo : toFloat? jlo with _ | q <;>
          simp [resolveCoords, parsedCoords, h1, h2, hfo, hnum]
      · subst hb
        rcases hfa : toFloat? jla with _ | qa <;>
          simp [resolveCoords, parsedCoords, h1, h2, hfa, hnum]
    have hstr : ∀ (env2 : Env) (req2 : RateRequest) (city : String),
        req2.latitude = none →
        resolveCoords env2 req2 city = geocodeStep env2 city := by
      intro env2 req2 city hnone
      simp [resolveCoords, parsedCoords, hnone]
    by_cases hk : req.apiKey = some env.apiKey
    · simp only [predict_rate, cityOf, hk, if_pos, hgeo, hstr]
    · simp only [predict_rate, if_neg hk]

/-- C10 witness: the theorem applied to the sample request with
non-zero coordinates (geocoder irrelevance and honoured distance) and
to a request carrying latitude 0 (geocoding fallthrough). -/
theorem C10_coordinate_truthiness_witness :
    reqRateW.latitude = some (.num 2) ∧ (2 : ℚ) ≠ 0 ∧
      predict_rate { envRuleW with geocode := gW } reqRateW [] =
        predict_rate envRuleW reqRateW [] ∧
      ((predict_rate envRuleW reqRateW []).1).distOf =
        some (round2 (envRuleW.geo BASE_LOCATION (2, 3))) ∧
      predict_rate envGeoW
          { reqRateW with latitude := some (.num 0) } [] =
        predict_rate envGeoW
          { reqRateW with latitude := none, longitude := none } [] := by
  have h1 : reqRateW.latitude = some (.num 2) := rfl
  have h2 : reqRateW.longitude = some (.num 3) := rfl
  have h3 : (2 : ℚ) ≠ 0 := by norm_num
  have h4 : (3 : ℚ) ≠ 0 := by norm_num
  have hk : reqRateW.apiKey = some envRuleW.apiKey := rfl
  have hg : envRuleW.config.min_delivery_order ≤
      reqRateW.order_total.getD 0 := by
    norm_num [envRuleW, reqRateW, defaultConfig]
  have h1z : ({ reqRateW with latitude := some (.num 0) } :
      RateRequest).latitude = some (.num 0) := rfl
  have h2z : ({ reqRateW with latitude := some (.num 0) } :
      RateRequest).longitude = some (.num 3) := rfl
  refine ⟨h1, h3, ?_, ?_, ?_⟩
  · exact C10_coordinate_truthiness.1 envRuleW reqRateW [] 2 3 gW
      h1 h2 h3 h4
  · exact C10_coordinate_truthiness.2.1 envRuleW reqRateW [] 2 3
      h1 h2 h3 h4 hk hg
  · exact C10_coordinate_truthiness.2.2 envGeoW
      { reqRateW with latitude := some (.num 0) } [] (.num 0) (.num 3)
      h1z h2z (Or.inr (Or.inr (Or.inl rfl)))
